import Mathlib

/-!
Verification development for the hades cluster-operations tool.

The repository's `src/cli.py` holds the CLI glue: option/argument parsing,
validation of user input, and dispatch to a `MainCommandHandler`.  The core
subsystems (RoleSelector, ExecutionCoordinator, ConfigBackupStore, the
per-action orchestration) are collaborators described by the design
specification; where a definition embeds one of those, its doc comment says
so explicitly.
-/

namespace Hades

/-- A role in the cluster topology: an identifier and a role-type tag
(spec section 3, data model `Role`).  The owning host and config paths are
irrelevant to the properties proved here and are omitted. -/
structure Role where
  name : String
  roleType : String
deriving DecidableEq, Repr

/-- Decidable equality for `Except` results, so concrete invocations can be
checked by evaluation. -/
instance {ε α : Type} [DecidableEq ε] [DecidableEq α] : DecidableEq (Except ε α) := fun x y =>
  match x, y with
  | .ok a, .ok b =>
    if h : a = b then .isTrue (by rw [h]) else .isFalse (by intro hc; cases hc; exact h rfl)
  | .ok _, .error _ => .isFalse (by intro hc; cases hc)
  | .error _, .ok _ => .isFalse (by intro hc; cases hc)
  | .error e, .error f =>
    if h : e = f then .isTrue (by rw [h]) else .isFalse (by intro hc; cases hc; exact h rfl)

/-- Does the first list occur at the start of the second? (Pattern first.)
Structural-recursion helper so concrete selector matches evaluate inside the
kernel. -/
def startsWithChars : List Char → List Char → Bool
  | [], _ => true
  | _ :: _, [] => false
  | p :: ps, c :: cs => p == c && startsWithChars ps cs

/-- Splits a character list on commas; always returns at least one (possibly
empty) token, like Python's str.split(",") / click free-text selectors. -/
def splitComma : List Char → List (List Char)
  | [] => [[]]
  | c :: cs =>
    let r := splitComma cs
    if c = ',' then [] :: r
    else (c :: r.headD []) :: r.tail

/-- Modelled from the spec: `RoleSelector` lives outside `src/` (only the CLI
glue is present).  One selector token matched against one role, per the
grammar of spec section 4.1: a literal token matches a role by exact name, a
token ending in `*` matches names starting with the part before the star, a
token of form `type=X` matches by role-type; matching is case-insensitive. -/
def tokenMatches (tok : List Char) (r : Role) : Bool :=
  if (tok.map Char.toLower).getLast? == some '*' then
    startsWithChars (tok.map Char.toLower).dropLast (r.name.data.map Char.toLower)
  else if startsWithChars ('t' :: 'y' :: 'p' :: 'e' :: '=' :: []) (tok.map Char.toLower) then
    (r.roleType.data.map Char.toLower) == (tok.map Char.toLower).drop 5
  else
    (r.name.data.map Char.toLower) == tok.map Char.toLower

/-- Modelled from the spec: comma-separated tokens of a selector expression
are unioned (spec section 4.1). -/
def selectorMatches (expr : String) (r : Role) : Bool :=
  (splitComma expr.data).any (fun tok => tokenMatches tok r)

/-- Error raised when a non-empty selector expression matches no role
(spec sections 4.1 and 7). -/
inductive SelectorError where
  | SelectorResolutionError
deriving DecidableEq, Repr

/-- Helper for first-occurrence deduplication: drops every role already seen.
Structurally recursive so concrete resolutions evaluate inside the kernel. -/
def dedupFirstAux (seen : List Role) : List Role → List Role
  | [] => []
  | r :: rs => if r ∈ seen then dedupFirstAux seen rs else r :: dedupFirstAux (r :: seen) rs

/-- Deduplication keeping the first occurrence of each role, so the result
stays in topology declaration order (spec section 4.1: "deduplicated,
ordered by topology declaration order"). -/
def dedupFirst (l : List Role) : List Role :=
  dedupFirstAux [] l

/-- Modelled from the spec: `RoleSelector.resolve` (spec section 4.1), absent
from `src/`.  The empty expression means "all roles"; otherwise the topology
is filtered by the expression; the result is deduplicated in declaration
order; a non-empty expression with zero matches raises
`SelectorResolutionError` instead of returning an empty set. -/
def resolve (expr : String) (topology : List Role) : Except SelectorError (List Role) :=
  if expr = "" then
    .ok (dedupFirst topology)
  else if (dedupFirst (topology.filter (selectorMatches expr))).isEmpty then
    .error .SelectorResolutionError
  else
    .ok (dedupFirst (topology.filter (selectorMatches expr)))

/-- Kinds of execution units bound to a role (spec section 3,
`ExecutionUnit`): process stop/start hooks, a file copy, a config patch. -/
inductive UnitKind where
  | stop
  | start
  | copyFile
  | patchFile
deriving DecidableEq, Repr

/-- Modelled from the spec: `ExecutionResult` (spec section 3), produced once
per role by the coordinator, absent from `src/`.  Captured stdout/stderr,
exit status and duration are irrelevant to the claims and omitted; the list
of units actually executed for the role is kept to state ordering facts. -/
structure ExecutionResult where
  role : Role
  success : Bool
  unitsRun : List UnitKind
deriving DecidableEq, Repr

/-- Modelled from the spec: `ExecutionCoordinator.dispatch` (spec section
4.3), absent from `src/`.  The per-role unit runner (unitFactory plus
RemoteExecutor collapsed into one function) yields each role's outcome and
unit trace; fan-out is fail-soft, so the coordinator emits one result per
role in input order and a role's entry depends on that role alone.  The
worker pool only bounds concurrency, which the result list does not
observe. -/
def dispatch (roles : List Role) (runRole : Role → Bool × List UnitKind) :
    List ExecutionResult :=
  roles.map (fun r => ⟨r, (runRole r).1, (runRole r).2⟩)

/-- Modelled from the spec: the per-role circumstances the restart action
reacts to (spec sections 4.3 and 4.5) — whether the stop unit succeeds on
that role, whether the role is already stopped, and whether the start unit
would succeed. -/
structure RestartEnv where
  stopSucceeds : Bool
  alreadyStopped : Bool
  startSucceeds : Bool
deriving DecidableEq, Repr

/-- Modelled from the spec: restart semantics for one role (spec sections
4.3 and 4.5): the stop unit always runs first; the start unit runs only if
stop succeeded or the role was already stopped; if stop fails on a running
role, start is never attempted and the role's result is a failure. -/
def restartUnits (e : RestartEnv) : Bool × List UnitKind :=
  if e.stopSucceeds || e.alreadyStopped then
    (e.startSucceeds, [UnitKind.stop, UnitKind.start])
  else
    (false, [UnitKind.stop])

/-- Modelled from the spec: the restart action fans the selected roles out
through the coordinator (spec section 4.5 delegates to section 4.3); invoked
by handler.role_action(selector, RoleAction.RESTART) in src/cli.py line
182. -/
def restartAction (roles : List Role) (env : Role → RestartEnv) : List ExecutionResult :=
  dispatch roles (fun r => restartUnits (env r))

/-- Modelled from the spec: per-role inputs of one update-config run on the
target file (spec sections 4.4 and 4.5) — the pre-update content of the file
on that role, and the patch outcome: the fully patched content, or none when
the patch step fails.  ConfigBackupStore and the patch executor are absent
from `src/`. -/
structure PatchEnv where
  initialContent : String
  patchOutcome : Option String
deriving DecidableEq, Repr

/-- Modelled from the spec: update-config applied to one role with backups
enabled (spec sections 4.4 and 4.5): ConfigBackupStore.backup captures the
current content strictly before patching; on patch failure the just-created
backup is restored.  Returns the final remote content of the file and the
backup stored for the (role, file) pair.  The backups-disabled path is
outside this claim's scope and is not modelled. -/
def updateConfigRole (e : PatchEnv) : String × Option String :=
  match e.patchOutcome with
  | some patched => (patched, some e.initialContent)
  | none => (e.initialContent, some e.initialContent)

/-- Modelled from the spec: update-config fans out per role; rollback is
strictly per-role, with no cross-role transaction (spec section 4.5).  Each
entry pairs a role with the final content of the file on that role and the
backup taken for it. -/
def updateConfigFleet (roles : List Role) (env : Role → PatchEnv) :
    List (Role × String × Option String) :=
  roles.map (fun r => (r, updateConfigRole (env r)))

/-- A small concrete topology used to exercise the theorems on closed
inputs. -/
def demoRoles : List Role :=
  [Role.mk ("namenode") ("hdfs"), Role.mk ("datanode") ("hdfs")]

/-- A concrete per-role unit runner: only the namenode unit succeeds. -/
def demoRun (r : Role) : Bool × List UnitKind :=
  (r.name == ("namenode"), [UnitKind.stop])

/-- A concrete restart environment: stop fails on the running namenode and
succeeds on the datanode. -/
def demoRestartEnv (r : Role) : RestartEnv :=
  RestartEnv.mk (r.name == ("datanode")) false true

/-- A concrete update-config environment: the patch fails on the namenode
and succeeds on the datanode. -/
def demoPatchEnv (r : Role) : PatchEnv :=
  if r.name == ("namenode") then
    PatchEnv.mk ("old-nn") none
  else
    PatchEnv.mk ("old-dn") (some ("new-dn"))

/-- Errors surfaced by the CLI layer of src/cli.py.  UsageError models the
rejection click itself performs when an option value falls outside a
click.Choice or a required argument is missing (the command body never
runs); ValueError models Python's ValueError from an enum lookup;
CliArgException and ConfigSetupException are the repository's own exception
types imported from core.error (src/cli.py line 14). -/
inductive CliError where
  | UsageError (msg : String)
  | ValueError (msg : String)
  | CliArgException (msg : String)
  | ConfigSetupException (msg : String)
deriving DecidableEq, Repr

/-- Modelled from the spec: the closed enum of recognized Hadoop config file
kinds (HadoopConfigFile, imported by src/cli.py line 16 from
hadoop.xml_config, which is absent from the excerpt).  Spec section 6 names
core-site, hdfs-site, yarn-site and mapred-site as the kinds. -/
inductive HadoopConfigFile where
  | coreSite
  | hdfsSite
  | yarnSite
  | mapredSite
deriving DecidableEq, Repr

/-- Modelled from the spec: the click value string of each config file kind,
as enumerated by click.Choice([n.value for n in HadoopConfigFile]) in
src/cli.py line 156. -/
def HadoopConfigFile.value : HadoopConfigFile → String
  | .coreSite => "core-site"
  | .hdfsSite => "hdfs-site"
  | .yarnSite => "yarn-site"
  | .mapredSite => "mapred-site"

/-- Lookup of a kind by its value string: the enum call
HadoopConfigFile(file) of src/cli.py line 170 and the membership test of the
click.Choice on line 156 both resolve a string against the kinds' values. -/
def HadoopConfigFile.ofValue (s : String) : Option HadoopConfigFile :=
  if s = "core-site" then some .coreSite
  else if s = "hdfs-site" then some .hdfsSite
  else if s = "yarn-site" then some .yarnSite
  else if s = "mapred-site" then some .mapredSite
  else none

/-- The dispatched call handler.update_config(selector, file, properties,
values, no_backup, source) of src/cli.py line 171.  Producing this value is
what reaching the command handler means; an error instead means no host was
ever contacted. -/
structure UpdateConfigCall where
  selector : String
  file : HadoopConfigFile
  properties : List String
  values : List String
  noBackup : Bool
  source : Option String
deriving DecidableEq, Repr

/-- The body of the update-config command, src/cli.py lines 161-171: the
property/value count check runs first and raises CliArgException on
mismatch, before the handler is fetched, the file string converted, or any
host contacted; then the file string is converted to its HadoopConfigFile
member (a ValueError branch that click's Choice makes unreachable) and the
handler is dispatched. -/
def update_config (selector : String) (file : String) (property : List String)
    (value : List String) (noBackup : Bool) (source : Option String) :
    Except CliError UpdateConfigCall :=
  if property.length ≠ value.length then
    .error (.CliArgException (("All property must map to a value. Properties: ") ++
      toString property.length ++ (" Values: ") ++ toString value.length))
  else
    match HadoopConfigFile.ofValue file with
    | some f => .ok (UpdateConfigCall.mk selector f property value noBackup source)
    | none => .error (.ValueError file)

/-- The click option layer of the update-config command (src/cli.py line
156): the required --file value must be one of the click.Choice values
built from HadoopConfigFile, otherwise click raises a usage error and the
command body of lines 161-171 never runs. -/
def updateConfigCommand (selector : String) (file : String) (property : List String)
    (value : List String) (noBackup : Bool) (source : Option String) :
    Except CliError UpdateConfigCall :=
  if (HadoopConfigFile.ofValue file).isSome then
    update_config selector file property value noBackup source
  else
    .error (.UsageError (("Invalid value for --file: ") ++ file))

/-- What the cli group callback (src/cli.py lines 26-48) stores in ctx.obj
before click chains to the subcommand: for init, a MainCommandHandler built
with no context (MainCommandHandler(None)) together with the config path;
for every other subcommand, a handler built over the HadesContext parsed
from the config file's contents. -/
inductive CtxObj where
  | initHandler (configPath : String)
  | contextHandler (configJson : String)
deriving DecidableEq, Repr

/-- The cli group callback of src/cli.py lines 26-48, run before any
subcommand body.  pathExists and readFile abstract the filesystem
(os.path.exists and open().read()); logging setup has no observable effect
here and is omitted.  For the init subcommand the callback returns before
the existence check, so the config file need not exist; for every other
subcommand a missing config file raises ConfigSetupException, so the
subcommand body never runs. -/
def cli (invokedSubcommand : String) (config : String)
    (pathExists : String → Bool) (readFile : String → String) : Except CliError CtxObj :=
  if invokedSubcommand = ("init") then
    .ok (.initHandler config)
  else if !(pathExists config) then
    .error (.ConfigSetupException
      ("Config file does not exist. Create config with the init subcommand."))
  else
    .ok (.contextHandler (readFile config))

/-- The dispatched call handler.compile(changed, deploy, modules, no_copy,
single) of src/cli.py line 69.  The single module is kept as the raw option
string; the HadoopModules enum it is looked up in is absent from the
excerpt and plays no part in the aggregation claim. -/
structure CompileCall where
  changed : Bool
  deploy : Bool
  modules : List String
  noCopy : Bool
  single : Option String
deriving DecidableEq, Repr

/-- The body of the compile command, src/cli.py lines 58-69: all_modules
starts empty; only when at least one --module option was supplied
(Python truthiness of the tuple) are the configured default modules and
then the supplied modules appended.  defaultModules abstracts
handler.ctx.config.default_modules. -/
def compile (defaultModules : List String) (changed deploy : Bool) (module : List String)
    (noCopy : Bool) (single : Option String) : CompileCall :=
  CompileCall.mk changed deploy
    (if module.isEmpty then [] else defaultModules ++ module) noCopy single

/-- One click positional argument declaration: its name and its default, if
any; click makes an argument without a default required. -/
structure ArgSpec where
  name : String
  defaultValue : Option String
deriving DecidableEq, Repr

/-- The selector argument declaration of each selector-taking command of
src/cli.py: log (line 94) declares it with no default, while distribute
(line 107), update-config (line 155) and restart-role (line 176) declare it
with default "". -/
def selectorArgSpec : String → Option ArgSpec
  | "log" => some (ArgSpec.mk ("selector") none)
  | "distribute" => some (ArgSpec.mk ("selector") (some ("")))
  | "update-config" => some (ArgSpec.mk ("selector") (some ("")))
  | "restart-role" => some (ArgSpec.mk ("selector") (some ("")))
  | _ => none

/-- click's handling of one positional argument: a supplied value wins;
otherwise the declared default applies; a missing argument without a
default is a usage error and the command body never runs. -/
def parseArg (spec : ArgSpec) (supplied : Option String) : Except CliError String :=
  match supplied with
  | some s => .ok s
  | none =>
    match spec.defaultValue with
    | some d => .ok d
    | none => .error (.UsageError (("Missing argument ") ++ spec.name))

theorem dedupFirstAux_sublist (l : List Role) :
    ∀ seen : List Role, (dedupFirstAux seen l).Sublist l := by
  induction l with
  | nil => intro seen; simp [dedupFirstAux]
  | cons r rs ih =>
    intro seen
    rw [dedupFirstAux]
    by_cases h : r ∈ seen
    · simp only [h, if_true]
      exact (ih seen).cons r
    · simp only [h, if_false]
      exact (ih (r :: seen)).cons₂ r

theorem mem_dedupFirstAux (l : List Role) :
    ∀ seen x, x ∈ dedupFirstAux seen l ↔ x ∈ l ∧ x ∉ seen := by
  induction l with
  | nil => intro seen x; simp [dedupFirstAux]
  | cons r rs ih =>
    intro seen x
    rw [dedupFirstAux]
    by_cases h : r ∈ seen
    · simp only [h, if_true, ih seen x, List.mem_cons]
      constructor
      · rintro ⟨hx, hn⟩; exact ⟨Or.inr hx, hn⟩
      · rintro ⟨hx | hx, hn⟩
        · exact absurd (hx ▸ h) hn
        · exact ⟨hx, hn⟩
    · simp only [h, if_false, List.mem_cons, ih (r :: seen) x]
      constructor
      · rintro (rfl | ⟨hx, hn⟩)
        · exact ⟨Or.inl rfl, h⟩
        · exact ⟨Or.inr hx, fun hs => hn (Or.inr hs)⟩
      · rintro ⟨rfl | hx, hn⟩
        · exact Or.inl rfl
        · by_cases hxr : x = r
          · exact Or.inl hxr
          · exact Or.inr ⟨hx, by simp [List.mem_cons, hxr, hn]⟩

theorem dedupFirstAux_nodup (l : List Role) :
    ∀ seen : List Role, (dedupFirstAux seen l).Nodup := by
  induction l with
  | nil => intro seen; simp [dedupFirstAux]
  | cons r rs ih =>
    intro seen
    rw [dedupFirstAux]
    by_cases h : r ∈ seen
    · simp only [h, if_true]; exact ih seen
    · simp only [h, if_false]
      refine List.nodup_cons.mpr ⟨?_, ih (r :: seen)⟩
      intro hmem
      exact ((mem_dedupFirstAux rs (r :: seen) r).mp hmem).2 (List.mem_cons_self r seen)

theorem dedupFirstAux_eq_self (l : List Role) :
    ∀ seen : List Role, l.Nodup → (∀ x ∈ l, x ∉ seen) → dedupFirstAux seen l = l := by
  induction l with
  | nil => intro seen _ _; rfl
  | cons r rs ih =>
    intro seen hnd hdisj
    rcases List.nodup_cons.mp hnd with ⟨hr, hrs⟩
    rw [dedupFirstAux]
    have hnot : r ∉ seen := hdisj r (List.mem_cons_self r rs)
    simp only [hnot, if_false]
    rw [ih (r :: seen) hrs]
    intro x hx
    simp only [List.mem_cons]
    rintro (rfl | hs)
    · exact hr hx
    · exact hdisj x (List.mem_cons_of_mem _ hx) hs

theorem dedupFirst_sublist (l : List Role) : (dedupFirst l).Sublist l :=
  dedupFirstAux_sublist l []

theorem mem_of_mem_dedupFirst {x : Role} {l : List Role} (h : x ∈ dedupFirst l) : x ∈ l :=
  (dedupFirst_sublist l).mem h

theorem dedupFirst_nodup (l : List Role) : (dedupFirst l).Nodup :=
  dedupFirstAux_nodup l []

theorem dedupFirst_eq_self (l : List Role) (h : l.Nodup) : dedupFirst l = l :=
  dedupFirstAux_eq_self l [] h (fun x _ hx => by cases hx)

theorem selectorMatches_star (r : Role) : selectorMatches ("*") r = true := by
  simp [selectorMatches, splitComma, tokenMatches, startsWithChars]

/-- C3: for every non-empty selector expression with at least one match,
`resolve` returns a duplicate-free set of roles, every member of which
satisfies the pattern, ordered by topology declaration order (a sublist of
the topology); in particular the selector `*` on a topology of N distinct
roles returns exactly those N roles in declaration order. -/
theorem resolve_nodup_matching_ordered :
    (∀ (expr : String) (topology out : List Role), expr ≠ ("") →
        resolve expr topology = .ok out →
        out.Nodup ∧ (∀ r ∈ out, selectorMatches expr r = true) ∧ out.Sublist topology) ∧
    (∀ topology : List Role, topology.Nodup → topology ≠ [] →
        resolve ("*") topology = .ok topology) := by
  constructor
  · intro expr topology out hne hok
    rw [resolve, if_neg hne] at hok
    by_cases hemp : (dedupFirst (topology.filter (selectorMatches expr))).isEmpty = true
    · rw [if_pos hemp] at hok
      cases hok
    · rw [if_neg hemp] at hok
      cases hok
      refine ⟨dedupFirst_nodup _, ?_, (dedupFirst_sublist _).trans (List.filter_sublist _)⟩
      intro r hr
      exact (List.mem_filter.mp (mem_of_mem_dedupFirst hr)).2
  · intro topology hnd hne
    have hfil : topology.filter (selectorMatches ("*")) = topology :=
      List.filter_eq_self.mpr (fun a _ => selectorMatches_star a)
    have hstar : ¬(("*" : String) = ("")) := by decide
    rw [resolve, if_neg hstar, hfil, dedupFirst_eq_self topology hnd]
    cases topology with
    | nil => exact absurd rfl hne
    | cons a l => rfl

/-- Witness for C3 at a concrete two-role topology. -/
theorem resolve_nodup_matching_ordered_witness :
    ([Role.mk ("namenode") ("hdfs"), Role.mk ("datanode") ("hdfs")].Nodup ∧
      [Role.mk ("namenode") ("hdfs"), Role.mk ("datanode") ("hdfs")] ≠ []) ∧
    resolve ("*") [Role.mk ("namenode") ("hdfs"), Role.mk ("datanode") ("hdfs")] =
      .ok [Role.mk ("namenode") ("hdfs"), Role.mk ("datanode") ("hdfs")] :=
  ⟨⟨by decide, by decide⟩,
   resolve_nodup_matching_ordered.2
     [Role.mk ("namenode") ("hdfs"), Role.mk ("datanode") ("hdfs")] (by decide) (by decide)⟩

/-- C4: a non-empty selector expression that matches zero roles makes
`resolve` raise `SelectorResolutionError` rather than return an empty set. -/
theorem resolve_zero_matches_error (expr : String) (topology : List Role)
    (hne : expr ≠ ("")) (hnom : ∀ r ∈ topology, selectorMatches expr r = false) :
    resolve expr topology = .error .SelectorResolutionError := by
  have hfil : topology.filter (selectorMatches expr) = [] := by
    apply List.filter_eq_nil_iff.mpr
    intro a ha
    simp [hnom a ha]
  rw [resolve, if_neg hne, hfil]
  rfl

/-- Witness for C4: the selector zk* matches nothing on a one-role topology. -/
theorem resolve_zero_matches_error_witness :
    (("zk*" : String) ≠ ("") ∧
      ∀ r ∈ [Role.mk ("namenode") ("hdfs")], selectorMatches ("zk*") r = false) ∧
    resolve ("zk*") [Role.mk ("namenode") ("hdfs")] = .error .SelectorResolutionError :=
  ⟨⟨by decide, by decide⟩,
   resolve_zero_matches_error ("zk*") [Role.mk ("namenode") ("hdfs")] (by decide) (by decide)⟩

/-- C7: the coordinator returns exactly one result per targeted role, in
input order, and each role's entry is determined by that role's own run
alone, so a failure on one role never aborts or perturbs the others. -/
theorem dispatch_one_result_per_role (roles : List Role)
    (runRole : Role → Bool × List UnitKind) :
    (dispatch roles runRole).map ExecutionResult.role = roles ∧
    ∀ (i : Nat) (r : Role), roles[i]? = some r →
      (dispatch roles runRole)[i]? = some ⟨r, (runRole r).1, (runRole r).2⟩ := by
  constructor
  · rw [dispatch, List.map_map]
    exact List.map_id roles
  · intro i r hr
    rw [dispatch, List.getElem?_map, hr]
    rfl

/-- Witness for C7 on the two-role demo topology, at index 1 where the unit
run fails while index 0 succeeds. -/
theorem dispatch_one_result_per_role_witness :
    demoRoles[1]? = some (Role.mk ("datanode") ("hdfs")) ∧
    (dispatch demoRoles demoRun)[1]? =
      some ⟨Role.mk ("datanode") ("hdfs"),
        (demoRun (Role.mk ("datanode") ("hdfs"))).1,
        (demoRun (Role.mk ("datanode") ("hdfs"))).2⟩ :=
  ⟨by decide,
   (dispatch_one_result_per_role demoRoles demoRun).2 1
     (Role.mk ("datanode") ("hdfs")) (by decide)⟩

/-- C5: every result of the restart action ran the stop unit first; the
start unit ran only when stop succeeded or the role was already stopped, and
then the trace is exactly stop-then-start; when stop fails on a running
role, start is never attempted and the aggregate result marks that role
failed. -/
theorem restart_stop_before_start (roles : List Role) (env : Role → RestartEnv) :
    ∀ res ∈ restartAction roles env,
      res.unitsRun.head? = some UnitKind.stop ∧
      (UnitKind.start ∈ res.unitsRun ↔
        ((env res.role).stopSucceeds || (env res.role).alreadyStopped) = true) ∧
      (UnitKind.start ∈ res.unitsRun → res.unitsRun = [UnitKind.stop, UnitKind.start]) ∧
      ((env res.role).stopSucceeds = false → (env res.role).alreadyStopped = false →
        res.unitsRun = [UnitKind.stop] ∧ res.success = false) := by
  intro res hres
  rw [restartAction, dispatch] at hres
  rcases List.mem_map.mp hres with ⟨r, _, rfl⟩
  show (restartUnits (env r)).2.head? = some UnitKind.stop ∧ _
  rw [restartUnits]
  by_cases h : ((env r).stopSucceeds || (env r).alreadyStopped) = true
  · rw [if_pos h]
    refine ⟨rfl, ?_, fun _ => rfl, ?_⟩
    · simp [h]
    · intro h1 h2
      rw [h1, h2] at h
      cases h
  · rw [if_neg h]
    refine ⟨rfl, ?_, ?_, fun _ _ => ⟨rfl, rfl⟩⟩
    · constructor
      · intro hmem
        simp at hmem
      · intro hcond
        exact absurd hcond h
    · intro hmem
      simp at hmem

/-- Witness for C5: on the demo topology the namenode's stop fails while it
is running, so its trace is the lone stop unit and its result is failed. -/
theorem restart_stop_before_start_witness :
    (ExecutionResult.mk (Role.mk ("namenode") ("hdfs")) false [UnitKind.stop] ∈
        restartAction demoRoles demoRestartEnv ∧
      (demoRestartEnv (Role.mk ("namenode") ("hdfs"))).stopSucceeds = false ∧
      (demoRestartEnv (Role.mk ("namenode") ("hdfs"))).alreadyStopped = false) ∧
    (ExecutionResult.mk (Role.mk ("namenode") ("hdfs")) false [UnitKind.stop]).unitsRun =
        [UnitKind.stop] ∧
    (ExecutionResult.mk (Role.mk ("namenode") ("hdfs")) false [UnitKind.stop]).success = false :=
  ⟨⟨by decide, by decide, by decide⟩,
   (restart_stop_before_start demoRoles demoRestartEnv
       (ExecutionResult.mk (Role.mk ("namenode") ("hdfs")) false [UnitKind.stop])
       (by decide)).2.2.2 (by decide) (by decide)⟩

/-- C6: with backups enabled, every per-role entry of an update-config run
carries a backup equal to the pre-update content, taken before mutation;
when the patch step fails on a role the file's final content is byte-equal
to that pre-update snapshot; and when the patch succeeds on a role the
patched content stays in place regardless of failures on other roles —
rollback is per-role only, with no cross-role transaction. -/
theorem update_config_rollback (roles : List Role) (env : Role → PatchEnv) :
    ∀ p ∈ updateConfigFleet roles env,
      p.2.2 = some ((env p.1).initialContent) ∧
      ((env p.1).patchOutcome = none → p.2.1 = (env p.1).initialContent) ∧
      (∀ c, (env p.1).patchOutcome = some c → p.2.1 = c) := by
  intro p hp
  rw [updateConfigFleet] at hp
  rcases List.mem_map.mp hp with ⟨r, _, rfl⟩
  show (updateConfigRole (env r)).2 = some ((env r).initialContent) ∧ _
  rw [updateConfigRole]
  cases houtcome : (env r).patchOutcome with
  | none =>
    exact ⟨rfl, fun _ => rfl, fun c hc => by cases hc⟩
  | some patched =>
    refine ⟨rfl, ⟨fun hc => ?_, fun c hc => ?_⟩⟩
    · cases hc
    · cases hc
      rfl

/-- Witness for C6: the namenode's patch fails and its file is restored to
the snapshot, while the datanode keeps its patched content. -/
theorem update_config_rollback_witness :
    ((Role.mk ("namenode") ("hdfs"), (("old-nn" : String), some ("old-nn" : String))) ∈
        updateConfigFleet demoRoles demoPatchEnv ∧
      (demoPatchEnv (Role.mk ("namenode") ("hdfs"))).patchOutcome = none) ∧
    (("old-nn" : String), some ("old-nn" : String)).1 =
      (demoPatchEnv (Role.mk ("namenode") ("hdfs"))).initialContent :=
  ⟨⟨by decide, by decide⟩,
   ((update_config_rollback demoRoles demoPatchEnv
       (Role.mk ("namenode") ("hdfs"), (("old-nn" : String), some ("old-nn" : String)))
       (by decide)).2.1 (by decide))⟩

/-- C1: an update-config invocation whose property and value counts differ
fails with the count-mismatch CliArgException (the spec taxonomy's
ValidationError) as the first check of the command body — before the
handler is fetched or dispatched and before any host is contacted — and
both at the body and the full command layer no handler call is ever
produced, so nothing is partially applied. -/
theorem update_config_count_mismatch (selector file : String) (property value : List String)
    (noBackup : Bool) (source : Option String)
    (hmis : property.length ≠ value.length) :
    update_config selector file property value noBackup source =
      .error (.CliArgException (("All property must map to a value. Properties: ") ++
        toString property.length ++ (" Values: ") ++ toString value.length)) ∧
    (∀ call, update_config selector file property value noBackup source ≠ .ok call) ∧
    (∀ call, updateConfigCommand selector file property value noBackup source ≠ .ok call) := by
  have hbody : update_config selector file property value noBackup source =
      .error (.CliArgException (("All property must map to a value. Properties: ") ++
        toString property.length ++ (" Values: ") ++ toString value.length)) := by
    rw [update_config, if_pos hmis]
  refine ⟨hbody, fun call hc => ?_, fun call hc => ?_⟩
  · rw [hbody] at hc
    cases hc
  · rw [updateConfigCommand] at hc
    by_cases hf : (HadoopConfigFile.ofValue file).isSome = true
    · rw [if_pos hf, hbody] at hc
      cases hc
    · rw [if_neg hf] at hc
      cases hc

/-- Witness for C1: three properties and two values are rejected with the
descriptive count-mismatch error. -/
theorem update_config_count_mismatch_witness :
    (["a", "b", "c"].length ≠ ["x", "y"].length) ∧
    update_config ("") ("yarn-site") ["a", "b", "c"] ["x", "y"] false none =
      .error (.CliArgException (("All property must map to a value. Properties: ") ++
        toString ["a", "b", "c"].length ++ (" Values: ") ++ toString ["x", "y"].length)) :=
  ⟨by decide,
   (update_config_count_mismatch ("") ("yarn-site") ["a", "b", "c"] ["x", "y"] false none
     (by decide)).1⟩

/-- C2: the config-file kind of update-config is drawn from the closed
HadoopConfigFile enum: a string outside the enum's values is rejected by the
click layer before the command body (and hence the core handler) is
reached; a recognized string reaches the handler only as its converted enum
member; and every enum member's value is recognized. -/
theorem update_config_file_kind_closed :
    (∀ (selector file : String) (property value : List String) (noBackup : Bool)
        (source : Option String),
      HadoopConfigFile.ofValue file = none →
      updateConfigCommand selector file property value noBackup source =
        .error (.UsageError (("Invalid value for --file: ") ++ file))) ∧
    (∀ (selector file : String) (f : HadoopConfigFile) (property value : List String)
        (noBackup : Bool) (source : Option String) (call : UpdateConfigCall),
      HadoopConfigFile.ofValue file = some f →
      updateConfigCommand selector file property value noBackup source = .ok call →
      call.file = f) ∧
    (∀ f : HadoopConfigFile, HadoopConfigFile.ofValue f.value = some f) := by
  refine ⟨?_, ?_, ?_⟩
  · intro selector file property value noBackup source hnone
    rw [updateConfigCommand, hnone]
    rfl
  · intro selector file f property value noBackup source call hsome hok
    rw [updateConfigCommand, hsome] at hok
    simp only [Option.isSome_some, if_true] at hok
    rw [update_config] at hok
    by_cases hmis : property.length ≠ value.length
    · rw [if_pos hmis] at hok
      cases hok
    · rw [if_neg hmis, hsome] at hok
      cases hok
      rfl
  · intro f
    cases f <;> rfl

/-- Witness for C2: an unrecognized kind is rejected at the click layer,
and a recognized kind reaches the handler converted to its enum member. -/
theorem update_config_file_kind_closed_witness :
    (HadoopConfigFile.ofValue ("not-a-site") = none ∧
      updateConfigCommand ("") ("not-a-site") ["p"] ["v"] false none =
        .error (.UsageError (("Invalid value for --file: ") ++ ("not-a-site")))) ∧
    (HadoopConfigFile.ofValue ("hdfs-site") = some .hdfsSite ∧
      (UpdateConfigCall.mk ("") .hdfsSite ["p"] ["v"] false none).file =
        HadoopConfigFile.hdfsSite) :=
  ⟨⟨by decide,
    update_config_file_kind_closed.1 ("") ("not-a-site") ["p"] ["v"] false none (by decide)⟩,
   ⟨by decide,
    update_config_file_kind_closed.2.1 ("") ("hdfs-site") HadoopConfigFile.hdfsSite
      ["p"] ["v"] false none
      (UpdateConfigCall.mk ("") HadoopConfigFile.hdfsSite ["p"] ["v"] false none)
      (by decide) (by decide)⟩⟩

/-- C8: for the init subcommand the group callback stores a handler built
with no cluster context together with the config path, without ever
checking that the config file exists; for every other subcommand a
non-existent config file raises ConfigSetupException before any subcommand
handler is built. -/
theorem cli_init_skips_config_check :
    (∀ (config : String) (pathExists : String → Bool) (readFile : String → String),
      cli ("init") config pathExists readFile = .ok (.initHandler config)) ∧
    (∀ (sub config : String) (pathExists : String → Bool) (readFile : String → String),
      sub ≠ ("init") → pathExists config = false →
      cli sub config pathExists readFile =
        .error (.ConfigSetupException
          ("Config file does not exist. Create config with the init subcommand."))) := by
  constructor
  · intro config pathExists readFile
    rw [cli, if_pos rfl]
  · intro sub config pathExists readFile hsub hmiss
    rw [cli, if_neg hsub, hmiss]
    rfl

/-- Witness for C8: init succeeds on a filesystem with no files at all,
while status on the same filesystem fails with ConfigSetupException. -/
theorem cli_init_skips_config_check_witness :
    cli ("init") ("config.json") (fun _ => false) (fun _ => ("")) =
      .ok (.initHandler ("config.json")) ∧
    ((("status" : String) ≠ ("init")) ∧
      (fun _ => false) ("config.json") = false) ∧
    cli ("status") ("config.json") (fun _ => false) (fun _ => ("")) =
      .error (.ConfigSetupException
        ("Config file does not exist. Create config with the init subcommand.")) :=
  ⟨cli_init_skips_config_check.1 ("config.json") (fun _ => false) (fun _ => ("")),
   ⟨by decide, rfl⟩,
   cli_init_skips_config_check.2 ("status") ("config.json") (fun _ => false) (fun _ => (""))
     (by decide) rfl⟩

/-- C9: the module list handed to handler.compile contains the configured
default modules exactly when at least one --module option was supplied, in
which case it is the default modules followed by the supplied ones; with no
--module option the handler receives the empty list even when default
modules are configured. -/
theorem compile_default_modules_iff (defaultModules : List String) (changed deploy : Bool)
    (module : List String) (noCopy : Bool) (single : Option String) :
    (module ≠ [] →
      (compile defaultModules changed deploy module noCopy single).modules =
        defaultModules ++ module) ∧
    (module = [] →
      (compile defaultModules changed deploy module noCopy single).modules = []) := by
  constructor
  · intro hne
    rw [compile]
    simp [List.isEmpty_iff, hne]
  · intro hemp
    rw [compile, hemp]
    rfl

/-- Witness for C9: with one supplied module the defaults are prepended;
with none the list stays empty despite a configured default. -/
theorem compile_default_modules_iff_witness :
    (compile [("d1")] false false [("m1")] false none).modules = [("d1"), ("m1")] ∧
    (compile [("d1")] false false [] false none).modules = [] :=
  ⟨(compile_default_modules_iff [("d1")] false false [("m1")] false none).1 (by decide),
   (compile_default_modules_iff [("d1")] false false [] false none).2 rfl⟩

/-- C10: the selector argument defaults to the empty string for the
distribute, update-config and restart-role commands, while the log command
declares it with no default, so click rejects a log invocation lacking an
explicit selector and passes a supplied one through unchanged. -/
theorem selector_defaults :
    (∀ cmd ∈ [("distribute" : String), ("update-config"), ("restart-role")],
      ∃ spec, selectorArgSpec cmd = some spec ∧ parseArg spec none = .ok ("")) ∧
    (∃ spec, selectorArgSpec ("log") = some spec ∧
      parseArg spec none = .error (.UsageError (("Missing argument ") ++ ("selector"))) ∧
      ∀ s, parseArg spec (some s) = .ok s) := by
  constructor
  · intro cmd hcmd
    simp only [List.mem_cons, List.not_mem_nil, or_false] at hcmd
    rcases hcmd with rfl | rfl | rfl
    · exact ⟨ArgSpec.mk ("selector") (some ("")), rfl, rfl⟩
    · exact ⟨ArgSpec.mk ("selector") (some ("")), rfl, rfl⟩
    · exact ⟨ArgSpec.mk ("selector") (some ("")), rfl, rfl⟩
  · exact ⟨ArgSpec.mk ("selector") none, rfl, rfl, fun s => rfl⟩

/-- Witness for C10: the distribute command parses a missing selector to
the empty string. -/
theorem selector_defaults_witness :
    (("distribute" : String) ∈
      [("distribute" : String), ("update-config"), ("restart-role")]) ∧
    (∃ spec, selectorArgSpec ("distribute") = some spec ∧ parseArg spec none = .ok ("")) :=
  ⟨by decide, selector_defaults.1 ("distribute") (by decide)⟩

end Hades
